import Mathlib

/-!
Verification of the fetch-repos-bot work-distribution core.

The definitions below are a shallow embedding of the Python sources:
  * `scripts/generate_shards_and_matrix.py` (static sharder),
  * `scripts/run_consumer_worker.py` (atomic queue claim),
  * `tasks.py` (producer, consumer classification, shard report,
    assistant pipeline orchestrator).
-/

namespace FetchReposBot

/-- `math.ceil(a / b)` on naturals (for `b > 0`), as used for
`per_shard = math.ceil(total / num_workers)`. -/
def ceilDiv (a b : Nat) : Nat := (a + b - 1) / b

/-- The sharding loop of `generate_shards_and_matrix.main`:
`for i in range(num_workers)` with `start_idx = i * per_shard`,
`end_idx = min(start_idx + per_shard, total)`, a `break` once
`start_idx >= total`, and a `continue` safeguard on an empty slice.
The second `Nat` argument is the number of remaining loop iterations;
each produced pair is `(shard_id, shard_items)`. -/
def shardLoop (items : List α) (perShard total : Nat) : Nat → Nat → List (Nat × List α)
  | _, 0 => []
  | i, rem + 1 =>
    let start := i * perShard
    if total ≤ start then
      []
    else
      let stop := min (start + perShard) total
      let shardItems := (items.drop start).take (stop - start)
      if shardItems.isEmpty then
        shardLoop items perShard total (i + 1) rem
      else
        (i, shardItems) :: shardLoop items perShard total (i + 1) rem

/-- `generate_shards_and_matrix.main`: with `total = 0` nothing is sharded
(and no division happens); otherwise `num_workers = min(max_workers, total)`
and `per_shard = ceil(total / num_workers)` drive the loop.  The result is
the list of written shard files, as `(shard_id, shard_items)` pairs. -/
def mainShards (items : List α) (maxWorkers : Nat) : List (Nat × List α) :=
  let total := items.length
  if total = 0 then []
  else
    let numWorkers := min maxWorkers total
    let perShard := ceilDiv total numWorkers
    shardLoop items perShard total 0 numWorkers

/-- The `matrix.include` list written to `matrix-output.json`: one
`{'shard_id': i}` entry per shard file, in creation order. -/
def matrixInclude (items : List α) (maxWorkers : Nat) : List Nat :=
  (mainShards items maxWorkers).map Prod.fst

/-- Pythonic truthiness of an optional string field, as in `if not url:`:
a missing field (`None`) and the empty string are both falsy. -/
def strTruthy : Option String → Bool
  | none => false
  | some s => !s.isEmpty

/-- Occurrence of `pat` as a contiguous run inside a character list. -/
def listHasInfix (pat : List Char) : List Char → Bool
  | [] => decide (pat = [])
  | c :: rest => pat.isPrefixOf (c :: rest) || listHasInfix pat rest

/-- Python's `pat in s` substring test. -/
def containsSubstring (s pat : String) : Bool := listHasInfix pat.data s.data

/-- Python's `str.lower()` (over the ASCII letters that occur in the
messages the consumer inspects). -/
def lowerString (s : String) : String := String.mk (s.data.map Char.toLower)

/-- The consumer's transport-error test on a `GitCommandError` message:
`"could not resolve host" in str(git_err).lower() or "network" in
str(git_err).lower()`. -/
def isNetworkError (msg : String) : Bool :=
  containsSubstring (lowerString msg) "could not resolve host" ||
    containsSubstring (lowerString msg) "network"

/-- How Python prints an optional string inside an f-string. -/
def showOpt : Option String → String
  | none => "None"
  | some s => s

/-- Python's `str.split(sep)` for a one-character separator, on character
lists; `''.split(sep) == ['']`. -/
def splitOnChar (sep : Char) : List Char → List (List Char)
  | [] => [[]]
  | c :: rest =>
    match splitOnChar sep rest with
    | [] => [[]]
    | h :: t => if c = sep then [] :: h :: t else (c :: h) :: t

/-- Python's `str.replace('.git', '')`: every non-overlapping occurrence of
`.git` is removed, scanning left to right. -/
def removeDotGit : List Char → List Char
  | '.' :: 'g' :: 'i' :: 't' :: rest => removeDotGit rest
  | c :: rest => c :: removeDotGit rest
  | [] => []

/-- The consumer's fallback repository name:
`url.split('/')[-1].replace('.git', '')`. -/
def deriveRepoName (url : String) : String :=
  String.mk (removeDotGit (((splitOnChar '/' url.data).getLast?).getD []))

/-- Terminal classification of one repository in `processed_repos`. -/
inductive RepoStatus
  | success
  | failed
  | released
  | alreadyExists
deriving DecidableEq, Repr

/-- One entry of the consumer's `processed_repos` list (the record also
mirrored into the output work item). -/
structure RepoRecord where
  name : String
  url : String
  status : RepoStatus
  error : Option String
  commitHash : Option String
deriving DecidableEq, Repr

/-- Result of the external `Repo.clone_from` call: either a clone with a
readable head commit hash, or a `GitCommandError` carrying a message. -/
inductive CloneOutcome
  | cloned (commitHash : String)
  | gitError (msg : String)
deriving DecidableEq, Repr

/-- What the consumer does to the input work item itself:
`item.done()`, `item.fail(err_type, code=...)`, or neither (the released
path leaves the item untouched so it can be retried). -/
inductive Disposition
  | done
  | failWith (errType code : String)
  | untouched
deriving DecidableEq, Repr

/-- Everything one iteration of the consumer loop does for one work item. -/
structure ConsumerStep where
  record : Option RepoRecord
  output : Option RepoRecord
  disposition : Disposition
  cloneAttempted : Bool
deriving DecidableEq, Repr

/-- The `URL` / `Name` fields of one consumer work-item payload. -/
structure ConsumerPayload where
  url : Option String
  name : Option String
deriving DecidableEq, Repr

/-- One iteration of the consumer loop in `tasks.py` for a dict payload.
`repoExists` is the `repo_path.exists()` idempotency check and `clone` the
outcome of `Repo.clone_from`, both supplied by the environment. -/
def processItem (org : Option String) (payload : ConsumerPayload)
    (repoExists : Bool) (clone : CloneOutcome) : ConsumerStep :=
  if !strTruthy payload.url then
    { record := none, output := none,
      disposition := .failWith "APPLICATION" "MISSING_URL",
      cloneAttempted := false }
  else
    let url := payload.url.getD ""
    let repoName :=
      if strTruthy payload.name then payload.name.getD "" else deriveRepoName url
    if repoExists then
      let entry : RepoRecord :=
        { name := repoName, url := url, status := .alreadyExists,
          error := none, commitHash := none }
      { record := some entry, output := some entry,
        disposition := .done, cloneAttempted := false }
    else
      match clone with
      | .cloned h =>
        let entry : RepoRecord :=
          { name := repoName, url := url, status := .success,
            error := none, commitHash := some h }
        { record := some entry, output := some entry,
          disposition := .done, cloneAttempted := true }
      | .gitError msg =>
        let errMsg :=
          "Git error while cloning " ++ repoName ++ " from org " ++
            showOpt org ++ ": " ++ msg
        if isNetworkError msg then
          let entry : RepoRecord :=
            { name := repoName, url := url, status := .released,
              error := some errMsg, commitHash := none }
          { record := some entry, output := some entry,
            disposition := .untouched, cloneAttempted := true }
        else
          let entry : RepoRecord :=
            { name := repoName, url := url, status := .failed,
              error := some errMsg, commitHash := none }
          { record := some entry, output := some entry,
            disposition := .failWith "BUSINESS" "GIT_ERROR",
            cloneAttempted := true }

/-- Records appended to `processed_repos` by a consumer run over `inputs`,
each input being a payload together with its environment responses. -/
def consumerRecords (org : Option String)
    (inputs : List (ConsumerPayload × Bool × CloneOutcome)) : List RepoRecord :=
  (inputs.map (fun t => processItem org t.1 t.2.1 t.2.2)).filterMap
    ConsumerStep.record

/-- Status count used for the summary report, e.g.
`len([r for r in processed_repos if r["status"] == "success"])`. -/
def countStatus (recs : List RepoRecord) (st : RepoStatus) : Nat :=
  (recs.filter (fun r => r.status == st)).length

/-- The per-shard summary report of the consumer, minus its wall-clock
`timestamp` field (the claims compare reports up to that field). -/
structure ShardReport where
  shardId : String
  orgName : Option String
  totalProcessed : Nat
  successfulClones : Nat
  failedClones : Nat
  releasedItems : Nat
  alreadyExisting : Nat
  repositories : List RepoRecord
deriving DecidableEq, Repr

/-- Construction of the summary report from `processed_repos`. -/
def buildReport (shardId : String) (orgName : Option String)
    (recs : List RepoRecord) : ShardReport :=
  { shardId := shardId, orgName := orgName,
    totalProcessed := recs.length,
    successfulClones := countStatus recs .success,
    failedClones := countStatus recs .failed,
    releasedItems := countStatus recs .released,
    alreadyExisting := countStatus recs .alreadyExists,
    repositories := recs }

/-- Abstract state of the dynamic queue of `run_consumer_worker.py`:
the names still in `todo`, and for each successful claim the entry name
with the id of the worker that renamed it into `processing`. -/
structure QueueState where
  todo : List String
  claimed : List (String × Nat)
deriving Repr

/-- One atomic `p.rename(processing_dir / p.name)` attempt by worker `w`:
it succeeds exactly when the entry is still in `todo` (the rename is atomic
on one filesystem); a loser of the race leaves the state unchanged and the
worker moves on to its next candidate. -/
def tryRename (st : QueueState) (name : String) (w : Nat) : QueueState :=
  if name ∈ st.todo then
    { todo := st.todo.erase name, claimed := st.claimed ++ [(name, w)] }
  else st

/-- An arbitrary interleaving of rename attempts by the workers: each list
element is one atomic attempt `(entry name, worker id)`.  Scanning order and
stale directory listings are subsumed, since an attempt on a vanished entry
simply fails. -/
def runAttempts (st : QueueState) : List (String × Nat) → QueueState
  | [] => st
  | (n, w) :: rest => runAttempts (tryRename st n w) rest

/-- Stage results of the assistant pipeline: Python's `True`, `False` and
`"skipped"` entries of `stage_status` (a stage not yet reached holds `None`,
modelled by absence from the association list). -/
inductive StageOutcome
  | succeeded
  | failedStage
  | skipped
deriving DecidableEq, Repr

/-- `stage_order = ["Producer", "Consumer", "Reporter", "Dashboard"]`. -/
def stageOrder : List String := ["Producer", "Consumer", "Reporter", "Dashboard"]

/-- `stage_dependencies` of `assistant_org`. -/
def stageDeps (s : String) : List String :=
  if s = "Consumer" then ["Producer"]
  else if s = "Reporter" then ["Consumer"]
  else if s = "Dashboard" then ["Reporter"]
  else []

/-- Python's `", ".join(parts)`. -/
def joinComma : List String → String
  | [] => ""
  | [x] => x
  | x :: xs => x ++ ", " ++ joinComma xs

/-- Python `dict.get` on an association list written once per key. -/
def lookupVal (m : List (String × β)) (k : String) : Option β :=
  (m.find? (fun p => p.1 == k)).map Prod.snd

/-- Mutable state of `run_pipeline`: `stage_status`, `stage_messages`, and
the list of stages actually handed to the stage runner. -/
structure PipelineState where
  status : List (String × StageOutcome)
  messages : List (String × String)
  executed : List String
deriving Repr

/-- One iteration of the `for index, stage in enumerate(stage_order)` loop:
if any prerequisite's status is not `True`, the stage is skipped with a
message naming the unmet prerequisites; otherwise the external stage runner
`exec` is invoked and its boolean outcome recorded. -/
def runStage (exec : String → Bool × String) (st : PipelineState)
    (stage : String) : PipelineState :=
  let deps := stageDeps stage
  if deps.any (fun d => lookupVal st.status d != some .succeeded) then
    let missing := joinComma
      (deps.filter (fun d => lookupVal st.status d != some .succeeded))
    { st with
      status := st.status ++ [(stage, .skipped)],
      messages := st.messages ++
        [(stage, "Skipped because " ++ missing ++ " did not succeed.")] }
  else
    let r := exec stage
    { status := st.status ++ [(stage, if r.1 then .succeeded else .failedStage)],
      messages := st.messages ++ [(stage, r.2)],
      executed := st.executed ++ [stage] }

/-- The whole stage loop of `run_pipeline`, with the stage runner (`rcc`
subprocess) abstracted as `exec : stage name → (success, message)`. -/
def runPipeline (exec : String → Bool × String) : PipelineState :=
  stageOrder.foldl (runStage exec) ⟨[], [], []⟩

/-- One row of the producer's repository DataFrame (all values optional:
`row.get(...)` yields `None` for a missing column). -/
structure RepoRow where
  name : Option String
  url : Option String
  description : Option String
  created : Option String
  lastUpdated : Option String
  language : Option String
  stars : Option String
  isFork : Option String
deriving DecidableEq, Repr

/-- The `repo_payload` dict built by the producer for one row. -/
structure ProducerPayload where
  org : String
  name : Option String
  url : Option String
  description : Option String
  created : Option String
  lastUpdated : Option String
  language : Option String
  stars : Option String
  isFork : Option String
deriving DecidableEq, Repr

/-- Field-by-field construction of `repo_payload` from a row. -/
def rowToPayload (org : String) (r : RepoRow) : ProducerPayload :=
  { org := org, name := r.name, url := r.url, description := r.description,
    created := r.created, lastUpdated := r.lastUpdated, language := r.language,
    stars := r.stars, isFork := r.isFork }

/-- The output work items created by the producer loop: each row becomes a
payload, and `if not repo_payload.get("URL") or not repo_payload.get("Name"):
continue` drops the invalid ones before `workitems.outputs.create`. -/
def producerOutputs (org : String) (rows : List RepoRow) : List ProducerPayload :=
  (rows.map (rowToPayload org)).filter
    (fun p => strTruthy p.url && strTruthy p.name)

/-! Helper lemmas about the static sharder. -/

theorem le_mul_ceilDiv (a b : Nat) (hb : 0 < b) : a ≤ b * ceilDiv a b := by
  unfold ceilDiv
  have hdm := Nat.div_add_mod (a + b - 1) b
  have hm : (a + b - 1) % b < b := Nat.mod_lt _ hb
  omega

theorem ceilDiv_pos (a b : Nat) (ha : 0 < a) (hb : 0 < b) : 0 < ceilDiv a b := by
  unfold ceilDiv
  have h1 : 1 ≤ (a + b - 1) / b := by
    rw [Nat.le_div_iff_mul_le hb]
    omega
  omega

theorem shardLoop_flatten {α : Type} (items : List α) (p : Nat) (hp : 0 < p) :
    ∀ (rem i : Nat),
      ((shardLoop items p items.length i rem).map Prod.snd).flatten
        = (items.drop (i * p)).take (rem * p) := by
  intro rem
  induction rem with
  | zero => intro i; simp [shardLoop]
  | succ rem ih =>
    intro i
    by_cases h : items.length ≤ i * p
    · rw [shardLoop, if_pos h]
      simp [List.drop_eq_nil_of_le h]
    · have hlt : i * p < items.length := Nat.lt_of_not_le h
      have hne :
          ((items.drop (i * p)).take
            (min (i * p + p) items.length - i * p)).isEmpty = false := by
        rw [List.isEmpty_eq_false]
        apply List.length_pos.mp
        rw [List.length_take, List.length_drop]
        omega
      rw [shardLoop, if_neg h]
      simp only [hne, Bool.false_eq_true, if_false, List.map_cons,
        List.flatten_cons]
      rw [ih (i + 1)]
      have hmul : (i + 1) * p = i * p + p := by ring
      have hmul2 : (rem + 1) * p = p + rem * p := by ring
      rcases le_or_lt items.length (i * p + p) with hc | hc
      · have h1 : (items.drop (i * p)).take (min (i * p + p) items.length - i * p)
            = items.drop (i * p) := by
          rw [Nat.min_eq_right hc]
          exact List.take_of_length_le (by rw [List.length_drop])
        have h2 : items.drop ((i + 1) * p) = [] :=
          List.drop_eq_nil_of_le (by omega)
        have h3 : (items.drop (i * p)).take ((rem + 1) * p) = items.drop (i * p) :=
          List.take_of_length_le (by rw [List.length_drop]; omega)
        rw [h1, h2, List.take_nil, List.append_nil, h3]
      · have h1 : (items.drop (i * p)).take (min (i * p + p) items.length - i * p)
            = (items.drop (i * p)).take p := by
          rw [Nat.min_eq_left (Nat.le_of_lt hc)]
          congr 1
          omega
        have h2 : items.drop ((i + 1) * p) = (items.drop (i * p)).drop p := by
          rw [List.drop_drop, hmul]
        rw [h1, h2, hmul2, List.take_add]

theorem shardLoop_length {α : Type} (items : List α) (p : Nat) (hp : 0 < p) :
    ∀ (rem i : Nat),
      (shardLoop items p items.length i rem).length
        = min rem (ceilDiv items.length p - i) := by
  intro rem
  induction rem with
  | zero => intro i; simp [shardLoop]
  | succ rem ih =>
    intro i
    by_cases h : items.length ≤ i * p
    · have hk : ceilDiv items.length p ≤ i := by
        unfold ceilDiv
        rw [Nat.div_le_iff_le_mul_add_pred hp, Nat.mul_comm p i]
        omega
      rw [shardLoop, if_pos h]
      simp
      omega
    · have hlt : i * p < items.length := Nat.lt_of_not_le h
      have hik : i < ceilDiv items.length p := by
        unfold ceilDiv
        rw [Nat.lt_iff_add_one_le, Nat.le_div_iff_mul_le hp]
        have hmul : (i + 1) * p = i * p + p := by ring
        omega
      have hne :
          ((items.drop (i * p)).take
            (min (i * p + p) items.length - i * p)).isEmpty = false := by
        rw [List.isEmpty_eq_false]
        apply List.length_pos.mp
        rw [List.length_take, List.length_drop]
        omega
      rw [shardLoop, if_neg h]
      simp only [hne, Bool.false_eq_true, if_false, List.length_cons]
      rw [ih (i + 1)]
      omega

theorem shardLoop_sizes {α : Type} (items : List α) (p : Nat) (hp : 0 < p) :
    ∀ (rem i : Nat), ∀ x ∈ shardLoop items p items.length i rem,
      1 ≤ x.2.length ∧ x.2.length ≤ p := by
  intro rem
  induction rem with
  | zero => intro i x hx; simp [shardLoop] at hx
  | succ rem ih =>
    intro i x hx
    by_cases h : items.length ≤ i * p
    · rw [shardLoop, if_pos h] at hx
      simp at hx
    · have hlt : i * p < items.length := Nat.lt_of_not_le h
      have hne :
          ((items.drop (i * p)).take
            (min (i * p + p) items.length - i * p)).isEmpty = false := by
        rw [List.isEmpty_eq_false]
        apply List.length_pos.mp
        rw [List.length_take, List.length_drop]
        omega
      rw [shardLoop, if_neg h] at hx
      simp only [hne, Bool.false_eq_true, if_false, List.mem_cons] at hx
      rcases hx with hx | hx
      · subst hx
        rw [List.length_take, List.length_drop]
        omega
      · exact ih (i + 1) x hx

theorem ceilDiv_ceilDiv_le (n w : Nat) (hn : 0 < n) (hw : 0 < w) :
    ceilDiv n (ceilDiv n w) ≤ w := by
  have hp : 0 < ceilDiv n w := ceilDiv_pos n w hn hw
  show (n + ceilDiv n w - 1) / ceilDiv n w ≤ w
  rw [Nat.div_le_iff_le_mul_add_pred hp]
  have h1 := le_mul_ceilDiv n w hw
  rw [Nat.mul_comm] at h1
  omega

theorem ceilDiv_eq_one (n w : Nat) (hn : 0 < n) (h : n ≤ w) : ceilDiv n w = 1 := by
  have hw : 0 < w := by omega
  apply Nat.le_antisymm
  · show (n + w - 1) / w ≤ 1
    rw [Nat.div_le_iff_le_mul_add_pred hw]
    omega
  · show 1 ≤ (n + w - 1) / w
    rw [Nat.le_div_iff_mul_le hw]
    omega

theorem ceilDiv_min_self (n w : Nat) (hn : 0 < n) (_hw : 0 < w) :
    ceilDiv n (min w n) = ceilDiv n w := by
  rcases le_or_lt w n with h | h
  · rw [Nat.min_eq_left h]
  · rw [Nat.min_eq_right (Nat.le_of_lt h),
      ceilDiv_eq_one n n hn (Nat.le_refl n),
      ceilDiv_eq_one n w hn (Nat.le_of_lt h)]

theorem mainShards_flatten {α : Type} (items : List α) (w : Nat) (hw : 0 < w) :
    ((mainShards items w).map Prod.snd).flatten = items := by
  rcases Nat.eq_zero_or_pos items.length with h0 | hn
  · simp only [mainShards]
    rw [if_pos h0]
    simpa using (List.length_eq_zero.mp h0).symm
  · have hw' : 0 < min w items.length := by omega
    have hp : 0 < ceilDiv items.length (min w items.length) :=
      ceilDiv_pos _ _ hn hw'
    simp only [mainShards]
    rw [if_neg (by omega), shardLoop_flatten items _ hp (min w items.length) 0,
      Nat.zero_mul, List.drop_zero]
    exact List.take_of_length_le (le_mul_ceilDiv items.length _ hw')

theorem mainShards_length_eq {α : Type} (items : List α) (w : Nat)
    (hw : 0 < w) (hn : 0 < items.length) :
    (mainShards items w).length
      = ceilDiv items.length (ceilDiv items.length (min w items.length)) := by
  have hw' : 0 < min w items.length := by omega
  have hp : 0 < ceilDiv items.length (min w items.length) :=
    ceilDiv_pos _ _ hn hw'
  have hk := ceilDiv_ceilDiv_le items.length (min w items.length) hn hw'
  simp only [mainShards]
  rw [if_neg (by omega), shardLoop_length items _ hp (min w items.length) 0]
  omega

end FetchReposBot

namespace FetchReposBot

/-- C1 is refuted at 5 items and `max_workers = 4`: `per_shard = ceil(5/4) = 2`,
so the loop breaks after shards `[0,1]`, `[2,3]`, `[4]` — 3 shards, not
`min(4, 5) = 4`. -/
theorem shard_count_min_counterexample :
    ¬ ((mainShards (List.range 5) 4).length = min 4 (List.range 5).length) := by
  decide

/-- C1 (amended): for every non-empty work-item list and `max_workers > 0`,
the shards partition the items exactly, the number of shards (equal to the
number of matrix include entries) is `ceil(n / ceil(n / min(w, n)))`, which
is at most `min(w, n)` but can be strictly smaller. -/
theorem shard_partition_and_count {α : Type} (items : List α) (w : Nat)
    (hw : 0 < w) (hn : 0 < items.length) :
    ((mainShards items w).map Prod.snd).flatten = items ∧
    (mainShards items w).length
      = ceilDiv items.length (ceilDiv items.length (min w items.length)) ∧
    (mainShards items w).length ≤ min w items.length ∧
    (matrixInclude items w).length = (mainShards items w).length := by
  refine ⟨mainShards_flatten items w hw, mainShards_length_eq items w hw hn, ?_, ?_⟩
  · rw [mainShards_length_eq items w hw hn]
    exact ceilDiv_ceilDiv_le items.length (min w items.length) hn (by omega)
  · simp [matrixInclude]

/-- Closed instance of `shard_partition_and_count` at `items = [0,…,4]`,
`max_workers = 2`. -/
theorem shard_partition_and_count_witness :
    ((mainShards (List.range 5) 2).map Prod.snd).flatten = List.range 5 ∧
    (mainShards (List.range 5) 2).length
      = ceilDiv (List.range 5).length
          (ceilDiv (List.range 5).length (min 2 (List.range 5).length)) ∧
    (mainShards (List.range 5) 2).length ≤ min 2 (List.range 5).length ∧
    (matrixInclude (List.range 5) 2).length = (mainShards (List.range 5) 2).length :=
  shard_partition_and_count (List.range 5) 2 (by decide) (by decide)

/-- C2: for every work-item list and every `max_workers > 0`, concatenating
the shard files in shard-index order yields exactly the original input list,
order preserved. -/
theorem shard_concat_eq_items {α : Type} (items : List α) (w : Nat) (hw : 0 < w) :
    ((mainShards items w).map Prod.snd).flatten = items :=
  mainShards_flatten items w hw

/-- Closed instance of `shard_concat_eq_items` at `items = [0,…,6]`,
`max_workers = 3`. -/
theorem shard_concat_eq_items_witness :
    ((mainShards (List.range 7) 3).map Prod.snd).flatten = List.range 7 :=
  shard_concat_eq_items (List.range 7) 3 (by decide)

/-- C3 is refuted at 10 items and `max_workers = 4`: `per_shard = ceil(10/4)
= 3` gives shard sizes `3, 3, 3, 1`, and the last shard's size 1 is neither
`ceil(10/4) = 3` nor `ceil(10/4) - 1 = 2`. -/
theorem shard_size_counterexample :
    ¬ (∀ x ∈ mainShards (List.range 10) 4,
        x.2.length = ceilDiv (List.range 10).length 4 ∨
        x.2.length = ceilDiv (List.range 10).length 4 - 1) := by
  decide

/-- C3 (amended): for every non-empty work-item list of length `n` and every
`max_workers = w > 0`, every shard is non-empty and has size at most
`ceil(n/w)`; sizes below `ceil(n/w) - 1` do occur (see the counterexample). -/
theorem shard_size_bounds {α : Type} (items : List α) (w : Nat)
    (hw : 0 < w) (hn : 0 < items.length) :
    ∀ x ∈ mainShards items w,
      1 ≤ x.2.length ∧ x.2.length ≤ ceilDiv items.length w := by
  intro x hx
  have hw' : 0 < min w items.length := by omega
  have hp : 0 < ceilDiv items.length (min w items.length) :=
    ceilDiv_pos _ _ hn hw'
  have hx' : x ∈ shardLoop items (ceilDiv items.length (min w items.length))
      items.length 0 (min w items.length) := by
    simpa only [mainShards, if_neg (by omega : ¬ items.length = 0)] using hx
  have hb := shardLoop_sizes items _ hp (min w items.length) 0 x hx'
  rw [← ceilDiv_min_self items.length w hn hw]
  exact hb

/-- Closed instance of `shard_size_bounds` at `items = [0,…,9]`,
`max_workers = 4` and its first shard. -/
theorem shard_size_bounds_witness :
    1 ≤ ((0, [0, 1, 2]) : Nat × List Nat).2.length ∧
    ((0, [0, 1, 2]) : Nat × List Nat).2.length ≤ ceilDiv (List.range 10).length 4 :=
  shard_size_bounds (List.range 10) 4 (by decide) (by decide)
    (0, [0, 1, 2]) (by decide)

/-- C4: for an empty work-item list and any `max_workers > 0`, the sharder
writes an empty matrix include list and creates no shard files (returning on
the `total == 0` branch, before any division). -/
theorem empty_items_empty_matrix {α : Type} (w : Nat) (_hw : 0 < w) :
    mainShards ([] : List α) w = [] ∧ matrixInclude ([] : List α) w = [] := by
  constructor <;> simp [mainShards, matrixInclude]

/-- Closed instance of `empty_items_empty_matrix` at `α = Nat`,
`max_workers = 3`. -/
theorem empty_items_empty_matrix_witness :
    mainShards ([] : List Nat) 3 = [] ∧ matrixInclude ([] : List Nat) 3 = [] :=
  empty_items_empty_matrix 3 (by decide)

/-! Helper lemmas about the dynamic queue. -/

theorem tryRename_inv (init : List String) (st : QueueState) (n : String) (w : Nat)
    (hinit : init.Nodup) (h1 : st.todo.Nodup)
    (h2 : (st.claimed.map Prod.fst).Nodup)
    (h3 : ((st.claimed.map Prod.fst) ++ st.todo).Perm init) :
    (tryRename st n w).todo.Nodup ∧
    ((tryRename st n w).claimed.map Prod.fst).Nodup ∧
    (((tryRename st n w).claimed.map Prod.fst) ++ (tryRename st n w).todo).Perm init := by
  unfold tryRename
  by_cases hmem : n ∈ st.todo
  · rw [if_pos hmem]
    have hcomb : ((st.claimed.map Prod.fst) ++ st.todo).Nodup :=
      (h3.nodup_iff).mpr hinit
    have hdisj := (List.nodup_append.mp hcomb).2.2
    have hnotin : n ∉ st.claimed.map Prod.fst := fun hc => hdisj hc hmem
    refine ⟨h1.erase n, ?_, ?_⟩
    · rw [List.map_append]
      simp [List.nodup_append, h2, hnotin]
    · rw [List.map_append]
      simp only [List.map_cons, List.map_nil]
      have e1 : (st.claimed.map Prod.fst ++ [n]) ++ st.todo.erase n
          = st.claimed.map Prod.fst ++ (n :: st.todo.erase n) := by
        rw [List.append_assoc]; rfl
      rw [e1]
      exact (List.Perm.append_left _ (List.perm_cons_erase hmem).symm).trans h3
  · rw [if_neg hmem]
    exact ⟨h1, h2, h3⟩

theorem runAttempts_inv (init : List String) (hinit : init.Nodup) :
    ∀ (attempts : List (String × Nat)) (st : QueueState),
      st.todo.Nodup → (st.claimed.map Prod.fst).Nodup →
      ((st.claimed.map Prod.fst) ++ st.todo).Perm init →
      ((runAttempts st attempts).todo.Nodup ∧
       ((runAttempts st attempts).claimed.map Prod.fst).Nodup ∧
       (((runAttempts st attempts).claimed.map Prod.fst)
          ++ (runAttempts st attempts).todo).Perm init) := by
  intro attempts
  induction attempts with
  | nil => intro st h1 h2 h3; exact ⟨h1, h2, h3⟩
  | cons a rest ih =>
    intro st h1 h2 h3
    obtain ⟨n, w⟩ := a
    rw [runAttempts]
    obtain ⟨g1, g2, g3⟩ := tryRename_inv init st n w hinit h1 h2 h3
    exact ih (tryRename st n w) g1 g2 g3

end FetchReposBot

namespace FetchReposBot

/-- C5: under any interleaving of atomic rename attempts by any number of
workers over distinct todo entries, the claimed entries stay duplicate-free,
claimed-plus-remaining is a permutation of the initial todo set, and once the
todo directory is empty every entry has been claimed by exactly one claim
(so no entry is ever processed twice). -/
theorem atomic_claim_exactly_once (init : List String)
    (attempts : List (String × Nat)) (hinit : init.Nodup) :
    ((runAttempts ⟨init, []⟩ attempts).claimed.map Prod.fst).Nodup ∧
    (((runAttempts ⟨init, []⟩ attempts).claimed.map Prod.fst)
       ++ (runAttempts ⟨init, []⟩ attempts).todo).Perm init ∧
    ((runAttempts ⟨init, []⟩ attempts).todo = [] →
      ∀ n ∈ init,
        ((runAttempts ⟨init, []⟩ attempts).claimed.map Prod.fst).count n = 1) := by
  obtain ⟨g1, g2, g3⟩ := runAttempts_inv init hinit attempts ⟨init, []⟩
    hinit (by simp) (by simp)
  refine ⟨g2, g3, ?_⟩
  intro htodo n hn
  have hperm2 : ((runAttempts ⟨init, []⟩ attempts).claimed.map Prod.fst).Perm init := by
    simpa [htodo] using g3
  rw [hperm2.count_eq]
  exact List.count_eq_one_of_mem hinit hn

/-- Closed instance of `atomic_claim_exactly_once`: entries `a`, `b`, with
worker 0 and worker 1 racing (worker 1 loses the race on `a` and then
claims `b`). -/
theorem atomic_claim_exactly_once_witness :
    ((runAttempts ⟨["a", "b"], []⟩ [("a", 0), ("a", 1), ("b", 1)]).claimed.map
        Prod.fst).Nodup ∧
    (((runAttempts ⟨["a", "b"], []⟩ [("a", 0), ("a", 1), ("b", 1)]).claimed.map
        Prod.fst)
       ++ (runAttempts ⟨["a", "b"], []⟩ [("a", 0), ("a", 1), ("b", 1)]).todo).Perm
      ["a", "b"] ∧
    ((runAttempts ⟨["a", "b"], []⟩ [("a", 0), ("a", 1), ("b", 1)]).todo = [] →
      ∀ n ∈ ["a", "b"],
        ((runAttempts ⟨["a", "b"], []⟩ [("a", 0), ("a", 1), ("b", 1)]).claimed.map
            Prod.fst).count n = 1) :=
  atomic_claim_exactly_once ["a", "b"] [("a", 0), ("a", 1), ("b", 1)] (by decide)

/-! Helper lemmas about the consumer's report. -/

theorem countStatus_append (l1 l2 : List RepoRecord) (st : RepoStatus) :
    countStatus (l1 ++ l2) st = countStatus l1 st + countStatus l2 st := by
  simp [countStatus, List.filter_append]

theorem countStatus_perm {recs recs2 : List RepoRecord} (h : recs.Perm recs2)
    (st : RepoStatus) : countStatus recs st = countStatus recs2 st :=
  (h.filter _).length_eq

end FetchReposBot

namespace FetchReposBot

/-- C6: a clone attempt that fails with a transport-class error (network /
host-unresolvable message) on a payload carrying a URL is classified
`released`, recorded in the report, excluded from both the successful and
the failed clone counts (it bumps only `released_items`), and the work item
is neither marked done nor failed. -/
theorem network_error_released (org : Option String) (p : ConsumerPayload)
    (msg shardId : String) (recs : List RepoRecord)
    (hurl : strTruthy p.url = true) (hnet : isNetworkError msg = true) :
    ∃ entry : RepoRecord,
      (processItem org p false (.gitError msg)).record = some entry ∧
      entry.status = .released ∧
      (processItem org p false (.gitError msg)).disposition = .untouched ∧
      (buildReport shardId org (recs ++ [entry])).successfulClones
        = (buildReport shardId org recs).successfulClones ∧
      (buildReport shardId org (recs ++ [entry])).failedClones
        = (buildReport shardId org recs).failedClones ∧
      (buildReport shardId org (recs ++ [entry])).releasedItems
        = (buildReport shardId org recs).releasedItems + 1 := by
  simp only [processItem, hurl, Bool.not_true, Bool.false_eq_true, if_false,
    hnet, if_true]
  refine ⟨_, rfl, rfl, trivial, ?_, ?_, ?_⟩ <;>
    simp [buildReport, countStatus_append, countStatus]

/-- Closed instance of `network_error_released`: a DNS failure while cloning
`https://host/r.git` with an empty report so far. -/
theorem network_error_released_witness :
    ∃ entry : RepoRecord,
      (processItem (some "o") ⟨some "https://host/r.git", some "r"⟩ false
          (.gitError "fatal: Could not resolve host: host")).record = some entry ∧
      entry.status = .released ∧
      (processItem (some "o") ⟨some "https://host/r.git", some "r"⟩ false
          (.gitError "fatal: Could not resolve host: host")).disposition = .untouched ∧
      (buildReport "0" (some "o") ([] ++ [entry])).successfulClones
        = (buildReport "0" (some "o") []).successfulClones ∧
      (buildReport "0" (some "o") ([] ++ [entry])).failedClones
        = (buildReport "0" (some "o") []).failedClones ∧
      (buildReport "0" (some "o") ([] ++ [entry])).releasedItems
        = (buildReport "0" (some "o") []).releasedItems + 1 :=
  network_error_released (some "o") ⟨some "https://host/r.git", some "r"⟩
    "fatal: Could not resolve host: host" "0" [] (by decide) (by decide)

/-- C7 is refuted on the report side: a work item whose payload lacks `URL`
is failed with code `MISSING_URL` and skipped before the clone, but it is
never appended to `processed_repos`, so the shard report built from this
single-item run counts zero failed items and zero processed items. -/
theorem missing_url_counterexample :
    (processItem (some "org") ⟨none, some "repo"⟩ false (.gitError "boom")).record
      = none ∧
    (buildReport "0" (some "org")
        (consumerRecords (some "org")
          [(⟨none, some "repo"⟩, false, .gitError "boom")])).failedClones = 0 ∧
    (buildReport "0" (some "org")
        (consumerRecords (some "org")
          [(⟨none, some "repo"⟩, false, .gitError "boom")])).totalProcessed = 0 := by
  decide

/-- C7 (amended): a work item whose payload lacks `URL` (missing or empty)
is marked failed on the work item itself with the validation code
`MISSING_URL` and no clone is attempted — but it is excluded from the shard
report entirely (no record, hence counted neither in `failed_clones` nor in
`total_processed`). -/
theorem missing_url_validation (org : Option String) (p : ConsumerPayload)
    (ex : Bool) (cl : CloneOutcome) (h : strTruthy p.url = false) :
    processItem org p ex cl =
      { record := none, output := none,
        disposition := .failWith "APPLICATION" "MISSING_URL",
        cloneAttempted := false } := by
  simp [processItem, h]

/-- Closed instance of `missing_url_validation`: an empty-string URL is
falsy in Python, so it is also rejected before any clone. -/
theorem missing_url_validation_witness :
    processItem (some "o") ⟨some "", some "r"⟩ true (.cloned "abc") =
      { record := none, output := none,
        disposition := .failWith "APPLICATION" "MISSING_URL",
        cloneAttempted := false } :=
  missing_url_validation (some "o") ⟨some "", some "r"⟩ true (.cloned "abc")
    (by decide)

/-- C8 is refuted: the report embeds `repositories` (the `processed_repos`
list) in recording order, so recording the same two distinct outcomes in the
opposite order changes the report even with the timestamp field ignored. -/
theorem report_order_counterexample :
    buildReport "0" (some "org")
        [{ name := "a", url := "u1", status := .success, error := none,
           commitHash := some "h1" },
         { name := "b", url := "u2", status := .failed, error := some "e",
           commitHash := none }] ≠
      buildReport "0" (some "org")
        [{ name := "b", url := "u2", status := .failed, error := some "e",
           commitHash := none },
         { name := "a", url := "u1", status := .success, error := none,
           commitHash := some "h1" }] := by
  decide

/-- C8 (amended): for every permutation of the same multiset of recorded
outcomes, all five status counts of the finalized shard report
(`total_processed`, `successful_clones`, `failed_clones`, `released_items`,
`already_existing`) are identical, and the `repositories` lists are
permutations of each other — but the `repositories` field preserves
recording order, so the full report need not be byte-for-byte identical. -/
theorem report_counts_order_invariant (shardId : String) (org : Option String)
    (recs recs2 : List RepoRecord) (h : recs.Perm recs2) :
    (buildReport shardId org recs).totalProcessed
      = (buildReport shardId org recs2).totalProcessed ∧
    (buildReport shardId org recs).successfulClones
      = (buildReport shardId org recs2).successfulClones ∧
    (buildReport shardId org recs).failedClones
      = (buildReport shardId org recs2).failedClones ∧
    (buildReport shardId org recs).releasedItems
      = (buildReport shardId org recs2).releasedItems ∧
    (buildReport shardId org recs).alreadyExisting
      = (buildReport shardId org recs2).alreadyExisting ∧
    (buildReport shardId org recs).repositories.Perm
      (buildReport shardId org recs2).repositories :=
  ⟨h.length_eq, countStatus_perm h _, countStatus_perm h _, countStatus_perm h _,
    countStatus_perm h _, h⟩

/-- Closed instance of `report_counts_order_invariant` on two records
recorded in the two possible orders. -/
theorem report_counts_order_invariant_witness :
    (buildReport "0" none
        [{ name := "a", url := "u1", status := .success, error := none,
           commitHash := some "h1" },
         { name := "b", url := "u2", status := .released, error := some "e",
           commitHash := none }]).totalProcessed
      = (buildReport "0" none
        [{ name := "b", url := "u2", status := .released, error := some "e",
           commitHash := none },
         { name := "a", url := "u1", status := .success, error := none,
           commitHash := some "h1" }]).totalProcessed ∧
    (buildReport "0" none
        [{ name := "a", url := "u1", status := .success, error := none,
           commitHash := some "h1" },
         { name := "b", url := "u2", status := .released, error := some "e",
           commitHash := none }]).successfulClones
      = (buildReport "0" none
        [{ name := "b", url := "u2", status := .released, error := some "e",
           commitHash := none },
         { name := "a", url := "u1", status := .success, error := none,
           commitHash := some "h1" }]).successfulClones ∧
    (buildReport "0" none
        [{ name := "a", url := "u1", status := .success, error := none,
           commitHash := some "h1" },
         { name := "b", url := "u2", status := .released, error := some "e",
           commitHash := none }]).failedClones
      = (buildReport "0" none
        [{ name := "b", url := "u2", status := .released, error := some "e",
           commitHash := none },
         { name := "a", url := "u1", status := .success, error := none,
           commitHash := some "h1" }]).failedClones ∧
    (buildReport "0" none
        [{ name := "a", url := "u1", status := .success, error := none,
           commitHash := some "h1" },
         { name := "b", url := "u2", status := .released, error := some "e",
           commitHash := none }]).releasedItems
      = (buildReport "0" none
        [{ name := "b", url := "u2", status := .released, error := some "e",
           commitHash := none },
         { name := "a", url := "u1", status := .success, error := none,
           commitHash := some "h1" }]).releasedItems ∧
    (buildReport "0" none
        [{ name := "a", url := "u1", status := .success, error := none,
           commitHash := some "h1" },
         { name := "b", url := "u2", status := .released, error := some "e",
           commitHash := none }]).alreadyExisting
      = (buildReport "0" none
        [{ name := "b", url := "u2", status := .released, error := some "e",
           commitHash := none },
         { name := "a", url := "u1", status := .success, error := none,
           commitHash := some "h1" }]).alreadyExisting ∧
    (buildReport "0" none
        [{ name := "a", url := "u1", status := .success, error := none,
           commitHash := some "h1" },
         { name := "b", url := "u2", status := .released, error := some "e",
           commitHash := none }]).repositories.Perm
      (buildReport "0" none
        [{ name := "b", url := "u2", status := .released, error := some "e",
           commitHash := none },
         { name := "a", url := "u1", status := .success, error := none,
           commitHash := some "h1" }]).repositories :=
  report_counts_order_invariant "0" none
    [{ name := "a", url := "u1", status := .success, error := none,
       commitHash := some "h1" },
     { name := "b", url := "u2", status := .released, error := some "e",
       commitHash := none }]
    [{ name := "b", url := "u2", status := .released, error := some "e",
       commitHash := none },
     { name := "a", url := "u1", status := .success, error := none,
       commitHash := some "h1" }]
    (by decide)

/-- C9 is refuted on the message side: with a stage runner that succeeds for
Producer and fails for Consumer, Reporter and Dashboard are both skipped and
never executed, but Dashboard's message cites its direct prerequisite
Reporter — the string `Consumer` does not occur in it. -/
theorem dashboard_skip_message_counterexample :
    lookupVal (runPipeline (fun s => (s == "Producer", "ran"))).status "Reporter"
      = some .skipped ∧
    lookupVal (runPipeline (fun s => (s == "Producer", "ran"))).status "Dashboard"
      = some .skipped ∧
    lookupVal (runPipeline (fun s => (s == "Producer", "ran"))).messages "Dashboard"
      = some "Skipped because Reporter did not succeed." ∧
    ((lookupVal (runPipeline (fun s => (s == "Producer", "ran"))).messages
        "Dashboard").map (fun m => containsSubstring m "Consumer")) = some false := by
  decide

/-- C9 (amended): in the Producer → Consumer → Reporter → Dashboard pipeline,
if Producer succeeds and Consumer fails, Reporter and Dashboard both
transition to Skipped and are never handed to the stage runner; Reporter's
message names Consumer, while Dashboard's message names its direct
prerequisite Reporter (not Consumer). -/
theorem consumer_failure_skips_downstream (exec : String → Bool × String)
    (mp mc : String) (h1 : exec "Producer" = (true, mp))
    (h2 : exec "Consumer" = (false, mc)) :
    lookupVal (runPipeline exec).status "Reporter" = some .skipped ∧
    lookupVal (runPipeline exec).messages "Reporter"
      = some "Skipped because Consumer did not succeed." ∧
    lookupVal (runPipeline exec).status "Dashboard" = some .skipped ∧
    lookupVal (runPipeline exec).messages "Dashboard"
      = some "Skipped because Reporter did not succeed." ∧
    (runPipeline exec).executed = ["Producer", "Consumer"] := by
  have hrun : runPipeline exec =
      { status := [("Producer", .succeeded), ("Consumer", .failedStage),
                   ("Reporter", .skipped), ("Dashboard", .skipped)],
        messages := [("Producer", mp), ("Consumer", mc),
                     ("Reporter", "Skipped because Consumer did not succeed."),
                     ("Dashboard", "Skipped because Reporter did not succeed.")],
        executed := ["Producer", "Consumer"] } := by
    simp [runPipeline, stageOrder, runStage, stageDeps, lookupVal, joinComma,
      h1, h2]
  rw [hrun]
  exact ⟨rfl, rfl, rfl, rfl, rfl⟩

/-- Closed instance of `consumer_failure_skips_downstream` with the stage
runner succeeding exactly on Producer. -/
theorem consumer_failure_skips_downstream_witness :
    lookupVal (runPipeline (fun s => (s == "Producer", "ran"))).status "Reporter"
      = some .skipped ∧
    lookupVal (runPipeline (fun s => (s == "Producer", "ran"))).messages "Reporter"
      = some "Skipped because Consumer did not succeed." ∧
    lookupVal (runPipeline (fun s => (s == "Producer", "ran"))).status "Dashboard"
      = some .skipped ∧
    lookupVal (runPipeline (fun s => (s == "Producer", "ran"))).messages "Dashboard"
      = some "Skipped because Reporter did not succeed." ∧
    (runPipeline (fun s => (s == "Producer", "ran"))).executed
      = ["Producer", "Consumer"] :=
  consumer_failure_skips_downstream (fun s => (s == "Producer", "ran"))
    "ran" "ran" (by decide) (by decide)

/-- C10: every output work item created by the producer has a truthy (present
and non-empty) `URL` and `Name`: rows failing the check are skipped before
`workitems.outputs.create`. -/
theorem producer_outputs_valid (org : String) (rows : List RepoRow) :
    ∀ pl ∈ producerOutputs org rows,
      strTruthy pl.url = true ∧ strTruthy pl.name = true := by
  intro pl hpl
  unfold producerOutputs at hpl
  rw [List.mem_filter] at hpl
  have h2 := hpl.2
  rw [Bool.and_eq_true] at h2
  exact ⟨h2.1, h2.2⟩

/-- Closed instance of `producer_outputs_valid` on a one-row DataFrame. -/
theorem producer_outputs_valid_witness :
    strTruthy ({ org := "o", name := some "repo", url := some "https://u",
                 description := none, created := none, lastUpdated := none,
                 language := none, stars := none,
                 isFork := none } : ProducerPayload).url = true ∧
    strTruthy ({ org := "o", name := some "repo", url := some "https://u",
                 description := none, created := none, lastUpdated := none,
                 language := none, stars := none,
                 isFork := none } : ProducerPayload).name = true :=
  producer_outputs_valid "o"
    [{ name := some "repo", url := some "https://u", description := none,
       created := none, lastUpdated := none, language := none, stars := none,
       isFork := none }]
    { org := "o", name := some "repo", url := some "https://u",
      description := none, created := none, lastUpdated := none,
      language := none, stars := none, isFork := none }
    (by decide)

end FetchReposBot
